import Mathlib

/-!
Shallow embedding of the Lifestreet prebid-server adapter
(`adapters/lifestreet/lifestreet.go`) and proofs about it.

The adapter's own logic (slot-tag validation, per-unit request building,
the fan-out dispatch/drain loop, HTTP status handling, first-seat-first-bid
extraction, unknown-unit-code downgrading, and the final bids-or-last-error
reduction) is translated directly from the Go source.  External
collaborators that live outside this file's source (the generic OpenRTB
conversion `adapters.MakeOpenRTBGeneric`, JSON encoding/decoding, and the
HTTP transport) are passed in as explicit function parameters bundled in
`Externals`; goroutine completion order is an explicit arrival list.
-/

set_option autoImplicit false

deriving instance DecidableEq for Except

namespace Lifestreet

/-- Model of `pbs.MediaType`: the two media types the adapter attempts per unit. -/
inductive MediaType where
  | banner
  | video
deriving DecidableEq

/-- Model of `openrtb.Format` (only identity matters here; carried, never inspected). -/
structure Format where
  w : Int := 0
  h : Int := 0
deriving DecidableEq

/-- Model of `openrtb.Banner`, restricted to the one field the adapter mutates. -/
structure Banner where
  format : Option (List Format) := none
deriving DecidableEq

/-- Model of `openrtb.Imp`, restricted to the fields the adapter touches. -/
structure Imp where
  banner : Option Banner := none
  tagID : String := ""
deriving DecidableEq

/-- Model of `openrtb.BidRequest`, restricted to the impression list the adapter
rewrites; the remaining fields are carried opaquely by the external
conversion and never read by the adapter code. -/
structure BidRequest where
  imp : List Imp
deriving DecidableEq

/-- Error values produced by the adapter and its collaborators.
`httpStatus` models the `fmt.Errorf("HTTP status %d; body: %s", ...)`
error by carrying the embedded status code and raw body as data;
`jsonError` models `encoding/json` failures; `transport` models
plain network-level errors. -/
inductive AdapterError where
  | badInput (message : String)
  | badServerResponse (message : String)
  | httpStatus (status : Int) (body : String)
  | jsonError (message : String)
  | transport (message : String)
deriving DecidableEq

/-- Is this error an `adapters.BadInputError`? -/
def AdapterError.isBadInput : AdapterError → Bool
  | .badInput _ => true
  | _ => false

/-- An HTTP response as seen after `ioutil.ReadAll`: status and raw body. -/
structure HTTPResponse where
  statusCode : Int
  body : String
deriving DecidableEq

/-- One bid of `openrtb.BidResponse.SeatBid[..].Bid[..]`, restricted to the
fields `callOne` copies. -/
structure OrtbBid where
  impID : String := ""
  price : Int := 0
  adM : String := ""
  crID : String := ""
  w : Int := 0
  h : Int := 0
  dealID : String := ""
  nURL : String := ""
deriving DecidableEq

/-- Model of `openrtb.SeatBid`. -/
structure SeatBid where
  bid : List OrtbBid
deriving DecidableEq

/-- Model of `openrtb.BidResponse`. -/
structure BidResponse where
  seatBid : List SeatBid
deriving DecidableEq

/-- Model of `pbs.PBSBid`, with the enrichment fields later set by the goroutine. -/
structure PBSBid where
  adUnitCode : String := ""
  price : Int := 0
  adm : String := ""
  creativeId : String := ""
  width : Int := 0
  height : Int := 0
  dealId : String := ""
  nurl : String := ""
  bidderCode : String := ""
  bidID : String := ""
deriving DecidableEq

/-- Model of `adapters.CallOneResult`.  The zero value (all defaults) models the Go
zero value of the named return `result`. -/
structure CallOneResult where
  statusCode : Int := 0
  responseBody : String := ""
  bid : Option PBSBid := none
  error : Option AdapterError := none
deriving DecidableEq

/-- The `pbs.PBSBid` built from the first bid of the first seat
(`callOne`, lines 72-81 of the source). -/
def pbsBidOf (b : OrtbBid) : PBSBid :=
  { adUnitCode := b.impID
    price := b.price
    adm := b.adM
    creativeId := b.crID
    width := b.w
    height := b.h
    dealId := b.dealID
    nurl := b.nURL }

/-- Model of `LifestreetAdapter.callOne`: one transport call.  `http` is the outcome
of `ctxhttp.Do` followed by reading the body (a transport error, or a
status+body pair); `um` is `json.Unmarshal` into `openrtb.BidResponse`.
Returns the `(result, err)` pair of the Go named returns. -/
def callOne (http : Except AdapterError HTTPResponse)
    (um : String → Except String BidResponse) :
    CallOneResult × Option AdapterError :=
  match http with
  | .error e => ({}, some e)
  | .ok resp =>
    let result : CallOneResult := { statusCode := resp.statusCode, responseBody := resp.body }
    if resp.statusCode = 204 then (result, none)
    else if resp.statusCode ≠ 200 then
      (result, some (.httpStatus resp.statusCode resp.body))
    else
      match um resp.body with
      | .error m => (result, some (.jsonError m))
      | .ok bidResp =>
        match bidResp.seatBid with
        | [] => (result, none)
        | seat0 :: _ =>
          match seat0.bid with
          | [] => (result, none)
          | b :: _ => ({ result with bid := some (pbsBidOf b) }, none)

/-- C5: For every transport call whose HTTP response has status 204, the
resulting CallResult carries no Bid and no error, regardless of the
response body content. -/
theorem status_204_no_bid_no_error (body : String)
    (um : String → Except String BidResponse) :
    (callOne (.ok ⟨204, body⟩) um).1.bid = none ∧
      (callOne (.ok ⟨204, body⟩) um).2 = none := by
  simp [callOne]

/-- C6: For every transport call whose HTTP response status is neither 200
nor 204, `callOne` fails with an error embedding the status code and the
raw response body, and the result carries no Bid. -/
theorem non_success_status_yields_error (status : Int) (body : String)
    (um : String → Except String BidResponse)
    (h204 : status ≠ 204) (h200 : status ≠ 200) :
    callOne (.ok ⟨status, body⟩) um =
      ({ statusCode := status, responseBody := body },
        some (.httpStatus status body)) := by
  simp [callOne, h204, h200]

/-- Witness for C6 at status 500. -/
theorem non_success_status_yields_error_witness :
    callOne (.ok ⟨500, "oops"⟩) (fun _ => .error "bad") =
      ({ statusCode := 500, responseBody := "oops" },
        some (.httpStatus 500 "oops")) :=
  non_success_status_yields_error 500 "oops" (fun _ => .error "bad")
    (by decide) (by decide)

/-- C7: For every transport call with HTTP status 200: a body that fails to
decode yields a decode error; an empty seat-bid list or an empty first
seat yields no Bid and no error; otherwise exactly the first bid of the
first seat is taken. -/
theorem status_200_decode_and_first_bid (body : String)
    (um : String → Except String BidResponse) :
    (∀ m, um body = .error m →
      callOne (.ok ⟨200, body⟩) um =
        ({ statusCode := 200, responseBody := body }, some (.jsonError m)))
    ∧ (∀ br, um body = .ok br →
        (br.seatBid = [] ∨ ∃ s rest, br.seatBid = s :: rest ∧ s.bid = []) →
        callOne (.ok ⟨200, body⟩) um =
          ({ statusCode := 200, responseBody := body }, none))
    ∧ (∀ br s srest b brest, um body = .ok br →
        br.seatBid = s :: srest → s.bid = b :: brest →
        callOne (.ok ⟨200, body⟩) um =
          ({ statusCode := 200, responseBody := body, bid := some (pbsBidOf b) },
            none)) := by
  refine ⟨?_, ?_, ?_⟩
  · intro m hm
    simp [callOne, hm]
  · intro br hbr hcase
    rcases hcase with h | ⟨s, rest, hs, hb⟩
    · simp [callOne, hbr, h]
    · simp [callOne, hbr, hs, hb]
  · intro br s srest b brest hbr hs hb
    simp [callOne, hbr, hs, hb]

/-- Model of `lifestreetParams`: the decoded `slot_tag` parameter blob. -/
structure LifestreetParams where
  slotTag : String
deriving DecidableEq

/-- Model of `pbs.PBSAdUnit`, restricted to what the adapter reads: the outcome of
`json.Unmarshal(unit.Params, &params)` (an error, or the decoded params)
and the ad-unit code. -/
structure AdUnit where
  params : Except String LifestreetParams
  code : String := ""

/-- Model of `pbs.PBSBidder`, restricted to what the adapter reads: the ad units,
the bidder code, and the `LookupBidID` table (returning the empty string
when the unit code has no entry, as in Go). -/
structure PBSBidder where
  adUnits : List AdUnit
  bidderCode : String := ""
  lookupBidID : String → String

/-- Model of `pbs.PBSRequest`, restricted to the one field the adapter reads. -/
structure PBSRequest where
  isDebug : Bool
deriving DecidableEq

/-- Go `strings.Split(s, ".")` on one character list (single-character
separator): each occurrence of the separator starts a new segment, and
the empty string yields one empty segment. -/
def splitDotChars : List Char → List (List Char)
  | [] => [[]]
  | c :: rest =>
    let r := splitDotChars rest
    if c = '.' then [] :: r
    else
      match r with
      | [] => [[c]]
      | g :: gs => (c :: g) :: gs

/-- Go `strings.Split(s, ".")`. -/
def stringsSplitDot (s : String) : List String :=
  (splitDotChars s.data).map String.mk

/-- The slot-tag validation of `Call` (lines 112-128 of the source):
empty tag → "Missing slot_tag param"; a tag that does not split into
exactly two segments → "Invalid slot_tag param ..."; otherwise accepted.
Returns the `BadInputError` on failure, `none` on success. -/
def validateSlotTag (slotTag : String) : Option AdapterError :=
  if slotTag = "" then some (.badInput "Missing slot_tag param")
  else if (stringsSplitDot slotTag).length ≠ 2 then
    some (.badInput ("Invalid slot_tag param " ++ slotTag))
  else none

/-- The external collaborators of `Call`, passed in explicitly:
`makeGeneric` is `adapters.MakeOpenRTBGeneric(req, bidder, name, [mtype])`
(same `req`/`bidder` for the whole invocation, so a function of the media
type only); `encode` is `json.NewEncoder(buf).Encode` (`none` = success);
`http i` is the transport outcome (status and fully-read body, or a
transport error) of the `i`-th dispatched goroutine's POST; `um` is
`json.Unmarshal` into `openrtb.BidResponse`. -/
structure Externals where
  makeGeneric : MediaType → Except AdapterError BidRequest
  encode : BidRequest → Option AdapterError
  http : Nat → Except AdapterError HTTPResponse
  um : String → Except String BidResponse

/-- Model of `LifestreetAdapter.MakeOpenRtbBidRequest`.  The outer `Option` models
Go run-time slice-bounds behaviour: `none` means the slice expression
`lsReq.Imp[unitInd : unitInd+1]` is out of range of the impression list
(a run-time panic), which the guard `len(lsReq.Imp) > 0` does not
exclude. -/
def MakeOpenRtbBidRequest (makeGeneric : MediaType → Except AdapterError BidRequest)
    (slotTag : String) (mtype : MediaType) (unitInd : Nat) :
    Option (Except AdapterError BidRequest) :=
  match makeGeneric mtype with
  | .error e => some (.error e)
  | .ok lsReq =>
    if lsReq.imp.length > 0 then
      if h : unitInd < lsReq.imp.length then
        let imp0 := lsReq.imp.get ⟨unitInd, h⟩
        some (.ok { lsReq with imp :=
          [{ imp0 with banner := imp0.banner.map (fun bn => { bn with format := none }),
                       tagID := slotTag }] })
      else none
    else some (.error (.badInput "No supported impressions"))

/-- The state of the request-building loop of `Call`: the
`make([]bytes.Buffer, len(bidder.AdUnits)*2)` buffer array (`none` = an
empty, never-written buffer; `some r` = the JSON encoding of `r`) and
`reqIndex`. -/
structure BuildState where
  requests : List (Option BidRequest)
  reqIndex : Nat
deriving DecidableEq

/-- The initial build state for `n` ad units. -/
def initBuildState (n : Nat) : BuildState :=
  { requests := List.replicate (n * 2) none, reqIndex := 0 }

/-- One media-type attempt of the build loop (the BANNER and VIDEO blocks
of `Call`): a builder error is swallowed (the `if err == nil` guard); on
success the request is encoded into `requests[reqIndex]` and `reqIndex`
advances, an encoding failure aborting the whole call.  `none` propagates
a builder panic. -/
def processMedia (ext : Externals) (slotTag : String) (mtype : MediaType)
    (i : Nat) (st : BuildState) : Option (Except AdapterError BuildState) :=
  match MakeOpenRtbBidRequest ext.makeGeneric slotTag mtype i with
  | none => none
  | some (.error _) => some (.ok st)
  | some (.ok lsReq) =>
    match ext.encode lsReq with
    | some e => some (.error e)
    | none => some (.ok { requests := st.requests.set st.reqIndex (some lsReq),
                          reqIndex := st.reqIndex + 1 })

/-- One iteration of the build loop of `Call` for ad unit `u` at index
`i`: decode the params blob, validate the slot tag, then attempt banner
and video. -/
def processUnit (ext : Externals) (i : Nat) (u : AdUnit) (st : BuildState) :
    Option (Except AdapterError BuildState) :=
  match u.params with
  | .error m => some (.error (.jsonError m))
  | .ok params =>
    match validateSlotTag params.slotTag with
    | some e => some (.error e)
    | none =>
      match processMedia ext params.slotTag .banner i st with
      | none => none
      | some (.error e) => some (.error e)
      | some (.ok st1) => processMedia ext params.slotTag .video i st1

/-- The request-building loop of `Call` (`for i, unit := range
bidder.AdUnits`). -/
def buildLoop (ext : Externals) (units : List AdUnit) (i : Nat)
    (st : BuildState) : Option (Except AdapterError BuildState) :=
  match units with
  | [] => some (.ok st)
  | u :: rest =>
    match processUnit ext i u st with
    | none => none
    | some (.error e) => some (.error e)
    | some (.ok st1) => buildLoop ext rest (i + 1) st1

/-- The number of outbound requests the build loop produced (the final
`reqIndex`), `0` when building aborted or panicked. -/
def builtCount (ext : Externals) (bidder : PBSBidder) : Nat :=
  match buildLoop ext bidder.adUnits 0 (initBuildState bidder.adUnits.length) with
  | some (.ok st) => st.reqIndex
  | _ => 0

/-- The bid-enrichment step performed by each goroutine after `callOne`
returns (lines 156-165 of the source): attach the bidder code, look up
the bid ID by ad-unit code, and on a failed lookup downgrade to a
`BadServerResponseError`, dropping the bid. -/
def enrichBid (bidder : PBSBidder) (result : CallOneResult) : CallOneResult :=
  match result.bid with
  | none => result
  | some b0 =>
    let b := { b0 with bidderCode := bidder.bidderCode,
                       bidID := bidder.lookupBidID b0.adUnitCode }
    if b.bidID = "" then
      { result with
          error := some (.badServerResponse ("Unknown ad unit code " ++ b.adUnitCode)),
          bid := none }
    else { result with bid := some b }

/-- The complete goroutine body for one dispatched call: run `callOne`,
store its error in the result, then enrich the bid. -/
def goroutineResult (bidder : PBSBidder) (http : Except AdapterError HTTPResponse)
    (um : String → Except String BidResponse) : CallOneResult :=
  enrichBid bidder { (callOne http um).1 with error := (callOne http um).2 }

/-- The terminal result of the goroutine dispatched for loop index `i`
(`go func(bidder, requests[i])` in the source; the transport outcome of
that goroutine's POST is `ext.http i`). -/
def dispatchResult (ext : Externals) (bidder : PBSBidder) (i : Nat) : CallOneResult :=
  goroutineResult bidder (ext.http i) ext.um

/-- The results of the dispatch loop `for i, _ := range bidder.AdUnits`:
one concurrent call is launched per ad-unit index. -/
def dispatchedCalls (ext : Externals) (bidder : PBSBidder) : List CallOneResult :=
  (List.range bidder.adUnits.length).map (dispatchResult ext bidder)

/-- The dispatched calls' results in channel-arrival order `arr` (an
arbitrary permutation of the dispatched indices). -/
def completions (ext : Externals) (bidder : PBSBidder) (arr : List Nat) :
    List CallOneResult :=
  arr.map (dispatchResult ext bidder)

/-- One `pbs.BidderDebug` entry. -/
structure BidderDebug where
  requestURI : String
  requestBody : Option BidRequest
  statusCode : Int
  responseBody : String
deriving DecidableEq

/-- The accumulator of the drain loop of `Call`: collected bids, the last
error observed, and the debug trace. -/
structure DrainState where
  bids : List PBSBid
  err : Option AdapterError
  debug : List BidderDebug
deriving DecidableEq

/-- One iteration of the drain loop of `Call` at loop counter `k` with the
arrived `result`: append a non-nil bid, append a debug entry built from
`requests[k]` when debugging, and remember the error. -/
def drainStep (uri : String) (isDebug : Bool) (requests : List (Option BidRequest))
    (k : Nat) (result : CallOneResult) (st : DrainState) : DrainState :=
  { bids :=
      match result.bid with
      | some b => st.bids ++ [b]
      | none => st.bids
    err :=
      match result.error with
      | some e => some e
      | none => st.err
    debug :=
      if isDebug then
        st.debug ++ [{ requestURI := uri, requestBody := requests.getD k none,
                       statusCode := result.statusCode,
                       responseBody := result.responseBody }]
      else st.debug }

/-- The drain loop of `Call` (`for i := 0; i < len(bidder.AdUnits); i++ {
result := <-ch; ... }`) over the results in arrival order. -/
def drainAll (uri : String) (isDebug : Bool) (requests : List (Option BidRequest)) :
    List CallOneResult → Nat → DrainState → DrainState
  | [], _, st => st
  | r :: rest, k, st =>
    drainAll uri isDebug requests rest (k + 1) (drainStep uri isDebug requests k r st)

/-- The fixed endpoint URI set by `NewLifestreetAdapter`. -/
def lifestreetURI : String := "https://prebid.s2s.lfstmedia.com/adrequest"

/-- The value returned by `Call`: the bid slice (`none` = Go `nil`), the
error, and the debug entries appended to `bidder.Debug`. -/
structure CallOutput where
  bids : Option (List PBSBid)
  err : Option AdapterError
  debug : List BidderDebug
deriving DecidableEq

/-- Model of `LifestreetAdapter.Call`: build the per-unit/per-media requests, fan
out one goroutine per ad unit, drain one completion per ad unit in
arrival order `arr`, and reduce to bids-or-last-error.  `none` models a
run-time panic during request building. -/
def Call (ext : Externals) (req : PBSRequest) (bidder : PBSBidder)
    (arr : List Nat) : Option CallOutput :=
  match buildLoop ext bidder.adUnits 0 (initBuildState bidder.adUnits.length) with
  | none => none
  | some (.error e) => some { bids := none, err := some e, debug := [] }
  | some (.ok st) =>
    let final := drainAll lifestreetURI req.isDebug st.requests
      (completions ext bidder arr) 0 { bids := [], err := none, debug := [] }
    if final.bids.isEmpty then some { bids := none, err := final.err, debug := final.debug }
    else some { bids := some final.bids, err := none, debug := final.debug }

/-- The bids appended by the drain loop: the non-nil bids of the arrived
results, in arrival order. -/
def collectedBids (rs : List CallOneResult) : List PBSBid :=
  rs.filterMap (fun r => r.bid)

/-- The update `err = result.Error` folded over a result list starting from `acc`. -/
def lastErrorAcc (acc : Option AdapterError) (rs : List CallOneResult) :
    Option AdapterError :=
  rs.foldl (fun a r => match r.error with | some e => some e | none => a) acc

/-- The last error observed across a result list (in arrival order). -/
def lastError (rs : List CallOneResult) : Option AdapterError :=
  lastErrorAcc none rs

/-! Structural lemmas about the drain loop and bid enrichment. -/

theorem drainAll_bids (uri : String) (d : Bool) (reqs : List (Option BidRequest)) :
    ∀ (rs : List CallOneResult) (k : Nat) (st : DrainState),
      (drainAll uri d reqs rs k st).bids = st.bids ++ collectedBids rs := by
  intro rs
  induction rs with
  | nil => intro k st; simp [drainAll, collectedBids]
  | cons r rest ih =>
    intro k st
    simp only [drainAll]
    rw [ih]
    simp only [collectedBids, List.filterMap_cons]
    cases hb : r.bid with
    | none => simp [drainStep, hb]
    | some b => simp [drainStep, hb]

theorem drainAll_err (uri : String) (d : Bool) (reqs : List (Option BidRequest)) :
    ∀ (rs : List CallOneResult) (k : Nat) (st : DrainState),
      (drainAll uri d reqs rs k st).err = lastErrorAcc st.err rs := by
  intro rs
  induction rs with
  | nil => intro k st; simp [drainAll, lastErrorAcc]
  | cons r rest ih =>
    intro k st
    simp only [drainAll]
    rw [ih]
    simp [drainStep, lastErrorAcc]

theorem enrichBid_bid_lookup (bidder : PBSBidder) (r : CallOneResult) (b : PBSBid)
    (h : (enrichBid bidder r).bid = some b) :
    bidder.lookupBidID b.adUnitCode = b.bidID ∧ b.bidID ≠ "" := by
  cases hb : r.bid with
  | none => simp [enrichBid, hb] at h
  | some b0 =>
    simp only [enrichBid, hb] at h
    by_cases hl : bidder.lookupBidID b0.adUnitCode = ""
    · simp [hl] at h
    · simp only [hl, if_neg, ite_false, if_false] at h
      simp only [Option.some.injEq] at h
      subst h
      exact ⟨rfl, hl⟩

theorem Call_build_ok (ext : Externals) (req : PBSRequest) (bidder : PBSBidder)
    (arr : List Nat) (st : BuildState)
    (hb : buildLoop ext bidder.adUnits 0 (initBuildState bidder.adUnits.length) =
      some (.ok st)) :
    ∃ dbg,
      Call ext req bidder arr =
        some (if (collectedBids (completions ext bidder arr)).isEmpty then
            { bids := none, err := lastError (completions ext bidder arr), debug := dbg }
          else
            { bids := some (collectedBids (completions ext bidder arr)), err := none,
              debug := dbg }) := by
  refine ⟨(drainAll lifestreetURI req.isDebug st.requests (completions ext bidder arr) 0
      { bids := [], err := none, debug := [] }).debug, ?_⟩
  have h1 : (drainAll lifestreetURI req.isDebug st.requests (completions ext bidder arr) 0
      { bids := [], err := none, debug := [] }).bids =
      collectedBids (completions ext bidder arr) := by
    rw [drainAll_bids]
    simp
  have h2 : (drainAll lifestreetURI req.isDebug st.requests (completions ext bidder arr) 0
      { bids := [], err := none, debug := [] }).err =
      lastError (completions ext bidder arr) := by
    rw [drainAll_err]
    rfl
  unfold Call
  rw [hb]
  dsimp only
  rw [h1, h2]
  split_ifs <;> rfl

/-! Concrete fixtures used by counterexamples and witnesses. -/

/-- An auction request with debugging off. -/
def req0 : PBSRequest := { isDebug := false }

/-- An ad unit whose params decoded to the valid slot tag `a.b`. -/
def unitAB : AdUnit := { params := .ok { slotTag := "a.b" }, code := "u1" }

/-- An ad unit whose params decoded to the valid slot tag `c.d`. -/
def unitCD : AdUnit := { params := .ok { slotTag := "c.d" }, code := "u2" }

/-- A concrete impression with a banner format list. -/
def imp0 : Imp := { banner := some { format := some [{ w := 300, h := 250 }] }, tagID := "" }

/-- A one-unit bidder whose bid-ID lookup table has no entries. -/
def bidder1 : PBSBidder :=
  { adUnits := [unitAB], bidderCode := "lifestreet", lookupBidID := fun _ => "" }

/-- A two-unit bidder with a total bid-ID lookup. -/
def bidder2 : PBSBidder :=
  { adUnits := [unitAB, unitCD], bidderCode := "lifestreet", lookupBidID := fun _ => "bid1" }

/-- Externals where the generic conversion yields one impression for both
media types, encoding succeeds, and every call gets a 204. -/
def extBoth : Externals :=
  { makeGeneric := fun _ => .ok { imp := [imp0] }
    encode := fun _ => none
    http := fun _ => .ok { statusCode := 204, body := "" }
    um := fun _ => .error "no" }

/-- Externals where the generic conversion yields no impression for either
media type (a unit supporting neither banner nor video). -/
def extNone : Externals := { extBoth with makeGeneric := fun _ => .ok { imp := [] } }

/-- Externals where the generic conversion itself fails with a
non-`BadInput` error. -/
def extGenErr : Externals :=
  { extBoth with makeGeneric := fun _ => .error (.transport "conversion failed") }

/-- Externals where JSON encoding of a built request fails. -/
def extEncErr : Externals :=
  { extBoth with encode := fun _ => some (.jsonError "encode failed") }

/-- Externals where the generic conversion yields one impression for
banner and none for video (only one of two units supports banner). -/
def extShort : Externals :=
  { extBoth with makeGeneric := fun mt =>
      match mt with
      | .banner => .ok { imp := [imp0] }
      | .video => .ok { imp := [] } }

/-- Externals where every call gets an HTTP 500. -/
def extErr : Externals :=
  { extBoth with http := fun _ => .ok { statusCode := 500, body := "oops" } }

/-- The outbound request the adapter builds from `imp0` and slot tag
`a.b`: format stripped, tag injected. -/
def builtReq0 : BidRequest :=
  { imp := [{ banner := some { format := none }, tagID := "a.b" }] }

/-- A concrete first bid used by witnesses. -/
def bid0 : OrtbBid :=
  { impID := "unit1", price := 100, adM := "markup", crID := "cr1",
    w := 300, h := 250, dealID := "", nURL := "n" }

/-- Witness for C7: all three 200-branches at concrete decoders. -/
theorem status_200_decode_and_first_bid_witness :
    callOne (.ok ⟨200, "x"⟩) (fun _ => .error "bad") =
      ({ statusCode := 200, responseBody := "x" }, some (.jsonError "bad"))
    ∧ callOne (.ok ⟨200, "x"⟩) (fun _ => .ok ⟨[]⟩) =
      ({ statusCode := 200, responseBody := "x" }, none)
    ∧ callOne (.ok ⟨200, "x"⟩) (fun _ => .ok ⟨[⟨[bid0]⟩]⟩) =
      ({ statusCode := 200, responseBody := "x", bid := some (pbsBidOf bid0) },
        none) := by
  refine ⟨?_, ?_, ?_⟩
  · exact (status_200_decode_and_first_bid "x" (fun _ => .error "bad")).1 "bad" rfl
  · exact (status_200_decode_and_first_bid "x" (fun _ => .ok ⟨[]⟩)).2.1 ⟨[]⟩ rfl
      (Or.inl rfl)
  · exact (status_200_decode_and_first_bid "x"
      (fun _ => .ok ⟨[⟨[bid0]⟩]⟩)).2.2 ⟨[⟨[bid0]⟩]⟩ ⟨[bid0]⟩ [] bid0 [] rfl rfl rfl

/-- C1 counterexample: with one ad unit whose banner and video requests
both build, the Request Builder produces 2 outbound requests while the
dispatch loop launches exactly 1 concurrent call (one per ad unit), so
the number of dispatched calls is not the number of built requests. -/
theorem dispatch_count_ne_built_count :
    builtCount extBoth bidder1 = 2 ∧
      (dispatchedCalls extBoth bidder1).length = 1 := by
  decide

/-- C1 amended: the fan-out coordinator dispatches exactly one concurrent
call per ad unit — the dispatch loop ranges over `bidder.AdUnits` — and
the drain loop consumes exactly one completion per ad unit, regardless of
how many outbound requests were built. -/
theorem call_dispatches_one_call_per_ad_unit (ext : Externals) (bidder : PBSBidder)
    (arr : List Nat) (h : arr.Perm (List.range bidder.adUnits.length)) :
    (dispatchedCalls ext bidder).length = bidder.adUnits.length ∧
      (completions ext bidder arr).length = bidder.adUnits.length := by
  constructor
  · simp [dispatchedCalls]
  · simp [completions, h.length_eq]

/-- Witness for the amended C1 at a one-unit bidder. -/
theorem call_dispatches_one_call_per_ad_unit_witness :
    (dispatchedCalls extBoth bidder1).length = 1 ∧
      (completions extBoth bidder1 [0]).length = 1 :=
  call_dispatches_one_call_per_ad_unit extBoth bidder1 [0] (by decide)

/-- C2 counterexample: the blob `a.` splits into two segments the second
of which is empty, yet the Slot Parser accepts it, contradicting the
claim that a blob with an empty segment fails. -/
theorem slot_tag_empty_segment_accepted :
    validateSlotTag "a." = none ∧ (stringsSplitDot "a.").getD 1 "x" = "" := by
  decide

/-- C2 amended: the Slot Parser succeeds exactly when the decoded slot tag
is non-empty and splits into exactly two delimiter-separated segments —
the segments themselves may be empty — and every parser failure is a
`BadInput` error. -/
theorem slot_tag_validation_spec (s : String) :
    (validateSlotTag s = none ↔ s ≠ "" ∧ (stringsSplitDot s).length = 2) ∧
      ∀ e, validateSlotTag s = some e → e.isBadInput = true := by
  unfold validateSlotTag
  split_ifs with h1 h2 <;> simp_all [AdapterError.isBadInput]

/-- Witness for the amended C2: `a.b` is accepted and the failure on the
one-segment blob `a` is a `BadInput` error. -/
theorem slot_tag_validation_spec_witness :
    validateSlotTag "a.b" = none ∧
      AdapterError.isBadInput ((validateSlotTag "a").getD (.jsonError "")) = true := by
  constructor
  · exact (slot_tag_validation_spec "a.b").1.mpr (by decide)
  · exact (slot_tag_validation_spec "a").2 _ (by decide)

/-- C3 counterexample: an auction request whose only ad unit supports
neither banner nor video does not make `Call` fail — both `BadInput`
builder failures are swallowed, one call per ad unit is still dispatched
(with an empty request buffer), and the call completes with no error at
all. -/
theorem unsupported_unit_call_no_failure :
    extNone.makeGeneric .banner = .ok { imp := [] } ∧
      extNone.makeGeneric .video = .ok { imp := [] } ∧
      (dispatchedCalls extNone bidder1).length = 1 ∧
      Call extNone req0 bidder1 [0] =
        some { bids := none, err := none, debug := [] } :=
  ⟨rfl, rfl, by decide, by decide⟩

/-- C3 amended: when both the banner and the video Request Builder
attempts for a unit fail, the build loop swallows both errors and leaves
the build state unchanged — the call does not abort and no `BadInput`
error is surfaced. -/
theorem unsupported_unit_builder_errors_swallowed (ext : Externals) (i : Nat)
    (u : AdUnit) (st : BuildState) (params : LifestreetParams)
    (hp : u.params = .ok params)
    (hv : validateSlotTag params.slotTag = none)
    (hbe : ∃ e, MakeOpenRtbBidRequest ext.makeGeneric params.slotTag .banner i =
      some (.error e))
    (hve : ∃ e, MakeOpenRtbBidRequest ext.makeGeneric params.slotTag .video i =
      some (.error e)) :
    processUnit ext i u st = some (.ok st) := by
  obtain ⟨e1, he1⟩ := hbe
  obtain ⟨e2, he2⟩ := hve
  simp [processUnit, processMedia, hp, hv, he1, he2]

/-- Witness for the amended C3. -/
theorem unsupported_unit_builder_errors_swallowed_witness :
    processUnit extNone 0 unitAB (initBuildState 1) = some (.ok (initBuildState 1)) :=
  unsupported_unit_builder_errors_swallowed extNone 0 unitAB (initBuildState 1)
    { slotTag := "a.b" } rfl (by decide)
    ⟨.badInput "No supported impressions", by decide⟩
    ⟨.badInput "No supported impressions", by decide⟩

/-- C4 counterexample: a Request Builder failure that is not the
`BadInput` "no supported impressions" condition (here a transport-level
conversion error) does not abort the call: it is swallowed and the call
completes normally with no error. -/
theorem non_badinput_builder_error_not_fatal :
    MakeOpenRtbBidRequest extGenErr.makeGeneric "a.b" .banner 0 =
        some (.error (.transport "conversion failed")) ∧
      Call extGenErr req0 bidder1 [0] =
        some { bids := none, err := none, debug := [] } :=
  ⟨rfl, by decide⟩

/-- C4 amended: no Request Builder failure aborts the call — every
`MakeOpenRtbBidRequest` error, `BadInput` or not, is swallowed leaving
the build state unchanged; in the build phase only a JSON-encoding
failure of a successfully built request aborts the whole call with that
error. -/
theorem builder_error_swallowed_encode_error_aborts :
    (∀ (ext : Externals) (slotTag : String) (mtype : MediaType) (i : Nat)
        (e : AdapterError) (st : BuildState),
        MakeOpenRtbBidRequest ext.makeGeneric slotTag mtype i = some (.error e) →
        processMedia ext slotTag mtype i st = some (.ok st))
    ∧ (∀ (ext : Externals) (slotTag : String) (mtype : MediaType) (i : Nat)
        (r : BidRequest) (e : AdapterError) (st : BuildState),
        MakeOpenRtbBidRequest ext.makeGeneric slotTag mtype i = some (.ok r) →
        ext.encode r = some e →
        processMedia ext slotTag mtype i st = some (.error e)) := by
  constructor
  · intro ext slotTag mtype i e st h
    simp [processMedia, h]
  · intro ext slotTag mtype i r e st h he
    simp [processMedia, h, he]

/-- Witness for the amended C4: a builder error is swallowed; an encoding
failure aborts with that error. -/
theorem builder_error_swallowed_encode_error_aborts_witness :
    processMedia extGenErr "a.b" .banner 0 (initBuildState 1) =
        some (.ok (initBuildState 1)) ∧
      processMedia extEncErr "a.b" .banner 0 (initBuildState 1) =
        some (.error (.jsonError "encode failed")) := by
  constructor
  · exact builder_error_swallowed_encode_error_aborts.1 extGenErr "a.b" .banner 0
      (.transport "conversion failed") (initBuildState 1) rfl
  · exact builder_error_swallowed_encode_error_aborts.2 extEncErr "a.b" .banner 0
      builtReq0 (.jsonError "encode failed") (initBuildState 1) rfl rfl

/-- C8: a decoded Bid whose unit code has no entry in the ad-unit lookup
table is downgraded to a `BadServerResponse` error and dropped by the
goroutine, and consequently a bid for an unrecognized unit code never
appears in the bid collection returned by `Call`. -/
theorem unknown_unit_code_bid_dropped :
    (∀ (bidder : PBSBidder) (http : Except AdapterError HTTPResponse)
        (um : String → Except String BidResponse) (b : PBSBid),
        (callOne http um).1.bid = some b →
        bidder.lookupBidID b.adUnitCode = "" →
        (goroutineResult bidder http um).bid = none ∧
        ∃ m, (goroutineResult bidder http um).error = some (.badServerResponse m))
    ∧ (∀ (ext : Externals) (req : PBSRequest) (bidder : PBSBidder) (arr : List Nat)
        (out : CallOutput) (bids : List PBSBid) (b : PBSBid),
        Call ext req bidder arr = some out → out.bids = some bids → b ∈ bids →
        bidder.lookupBidID b.adUnitCode ≠ "") := by
  constructor
  · intro bidder http um b hbid hlook
    unfold goroutineResult enrichBid
    have : ({ (callOne http um).1 with error := (callOne http um).2 } :
        CallOneResult).bid = some b := hbid
    rw [this]
    simp [hlook]
  · intro ext req bidder arr out bids b hcall hbids hmem
    cases hbl : buildLoop ext bidder.adUnits 0 (initBuildState bidder.adUnits.length) with
    | none =>
      unfold Call at hcall
      rw [hbl] at hcall
      exact absurd hcall (by simp)
    | some res =>
      cases res with
      | error e =>
        unfold Call at hcall
        rw [hbl] at hcall
        dsimp only at hcall
        rw [Option.some.injEq] at hcall
        rw [← hcall] at hbids
        simp at hbids
      | ok st =>
        obtain ⟨dbg, hc⟩ := Call_build_ok ext req bidder arr st hbl
        rw [hcall] at hc
        by_cases hemp : (collectedBids (completions ext bidder arr)).isEmpty
        · rw [if_pos hemp] at hc
          rw [Option.some.injEq] at hc
          rw [hc] at hbids
          simp at hbids
        · rw [if_neg hemp] at hc
          rw [Option.some.injEq] at hc
          rw [hc] at hbids
          simp only [Option.some.injEq] at hbids
          rw [← hbids] at hmem
          obtain ⟨r, hr, hrb⟩ := List.mem_filterMap.mp hmem
          obtain ⟨i, _, hi⟩ := List.mem_map.mp hr
          have hgr : (goroutineResult bidder (ext.http i) ext.um).bid = some b := by
            rw [← hi] at hrb
            exact hrb
          obtain ⟨heq, hne⟩ := enrichBid_bid_lookup bidder _ b hgr
          rw [heq]
          exact hne

/-- Witness for C8: a 200 response carrying a bid for unit code `unit1`
against a bidder whose lookup table is empty. -/
theorem unknown_unit_code_bid_dropped_witness :
    (goroutineResult bidder1 (.ok { statusCode := 200, body := "body" })
        (fun _ => .ok ⟨[⟨[bid0]⟩]⟩)).bid = none ∧
      ∃ m, (goroutineResult bidder1 (.ok { statusCode := 200, body := "body" })
        (fun _ => .ok ⟨[⟨[bid0]⟩]⟩)).error = some (.badServerResponse m) :=
  unknown_unit_code_bid_dropped.1 bidder1 (.ok { statusCode := 200, body := "body" })
    (fun _ => .ok ⟨[⟨[bid0]⟩]⟩) (pbsBidOf bid0) (by decide) rfl

/-- C9: after draining all completions, `Call` returns the collected bids
with no error when at least one Bid was collected, and otherwise returns
no bids together with the last error observed across all calls in
arrival order (`none` if no call errored). -/
theorem final_reduction_bids_or_last_error (ext : Externals) (req : PBSRequest)
    (bidder : PBSBidder) (arr : List Nat) (st : BuildState)
    (hb : buildLoop ext bidder.adUnits 0 (initBuildState bidder.adUnits.length) =
      some (.ok st)) :
    (collectedBids (completions ext bidder arr) = [] →
      ∃ dbg, Call ext req bidder arr =
        some { bids := none, err := lastError (completions ext bidder arr), debug := dbg })
    ∧ (collectedBids (completions ext bidder arr) ≠ [] →
      ∃ dbg, Call ext req bidder arr =
        some { bids := some (collectedBids (completions ext bidder arr)), err := none,
               debug := dbg }) := by
  obtain ⟨dbg, hc⟩ := Call_build_ok ext req bidder arr st hb
  constructor
  · intro h
    refine ⟨dbg, ?_⟩
    rw [hc]
    simp [h]
  · intro h
    refine ⟨dbg, ?_⟩
    rw [hc]
    simp [List.isEmpty_iff, h]

/-- The build state produced for `bidder1` under `extErr`: both media
types built, two encoded requests. -/
def stErr : BuildState := { requests := [some builtReq0, some builtReq0], reqIndex := 2 }

/-- Witness for C9: a single 500-failing call produces zero bids and the
last (only) error, which embeds status 500. -/
theorem final_reduction_bids_or_last_error_witness :
    ∃ dbg, Call extErr req0 bidder1 [0] =
      some { bids := none, err := lastError (completions extErr bidder1 [0]),
             debug := dbg } :=
  (final_reduction_bids_or_last_error extErr req0 bidder1 [0] stErr (by decide)).1
    (by decide)

/-- C10: evaluation at the failing input.  With two ad units of which only
the second's media type survives the generic projection, the projected
impression list has length 1, the guard `len(Imp) > 0` holds, and yet the
slice `Imp[1:2]` taken for unit index 1 is out of range of the projected
list — `MakeOpenRtbBidRequest` hits the out-of-range slice (modelled as
`none`, a run-time failure) and `Call` reaches it. -/
theorem unit_index_slice_out_of_range :
    extShort.makeGeneric .banner = .ok { imp := [imp0] } ∧
      MakeOpenRtbBidRequest extShort.makeGeneric "c.d" .banner 1 = none ∧
      Call extShort req0 bidder2 [0, 1] = none :=
  ⟨rfl, rfl, by decide⟩

end Lifestreet
